import Mathlib

/-!
Shallow embedding of `static_analysis/__init__.py` from the
`annotated-alias-detector` repository, together with theorems settling the
frozen claims about its specification.

The embedding models:
* the `builtin_modules` list,
* `get_abs_module`,
* the `AnnotatedAliasDetector` visitor state (`current_dir`, `current_module`,
  `visited_modules`, `annotated_aliases`, `symbol_def_graph`),
* `get_root_name` (fuel-indexed, since the Python `while` loop need not
  terminate on an arbitrary graph),
* `visit_Import` / `visit_ImportFrom` / `visit_Assign` / `visit_module`.

Python particulars that the embedding keeps:
* machine effects are pure state-passing; an uncaught Python exception
  (`AttributeError`, `IndexError`, assertion failure) is modelled as `none`;
* Python truthiness of strings (`if self.current_module:` is false for both
  `None` and `""`);
* `importlib.util.find_spec` and source parsing are the external Module
  Locator collaborator, modelled as an oracle `String → Locate`;
* recursion into modules is fuel-indexed (`none` on fuel exhaustion); the
  fuel only bounds the import-nesting depth and every claim is stated for
  arbitrary sufficient fuel.
-/

namespace StaticAnalysis

/-- The `builtin_modules` list from the source, verbatim. -/
def builtin_modules : List String := [
  "abc", "aifc", "argparse", "array", "ast", "asynchat", "asyncio",
  "asyncore", "atexit", "audioop", "base64", "bdb", "binascii", "binhex",
  "bisect", "builtins", "bz2", "cProfile", "calendar", "cgi", "cgitb",
  "chunk", "cmath", "cmd", "code", "codecs", "codeop", "collections",
  "colorsys", "compileall", "concurrent", "configparser", "contextlib",
  "copy", "copyreg", "crypt", "csv", "ctypes", "curses", "datetime", "dbm",
  "decimal", "difflib", "dis", "distutils", "doctest", "email", "encodings",
  "enum", "errno", "faulthandler", "fcntl", "filecmp", "fileinput",
  "fnmatch", "formatter", "fractions", "ftplib", "functools", "gc",
  "getopt", "getpass", "gettext", "glob", "grp", "gzip", "hashlib",
  "heapq", "hmac", "html", "http", "imaplib", "imghdr", "imp", "importlib",
  "inspect", "io", "ipaddress", "itertools", "json", "keyword", "lib2to3",
  "linecache", "locale", "logging", "lzma", "mailbox", "mailcap", "marshal",
  "math", "mimetypes", "mmap", "modulefinder", "msilib", "msvcrt",
  "multiprocessing", "netrc", "nis", "nntplib", "numbers", "operator",
  "optparse", "os", "ossaudiodev", "parser", "pathlib", "pdb", "pickle",
  "pickletools", "pipes", "pkgutil", "pkg_resources", "platform",
  "plistlib", "poplib", "posix", "pprint", "profile", "pstats", "pty",
  "pwd", "py_compile", "pyclbr", "pydoc", "queue", "quopri", "random",
  "re", "readline", "reprlib", "resource", "rlcompleter", "runpy", "sched",
  "secrets", "select", "selectors", "setuptools", "shelve", "shlex",
  "shutil", "signal", "site", "smtpd", "smtplib", "sndhdr", "socket",
  "socketserver", "spwd", "sqlite3", "ssl", "stat", "statistics", "string",
  "stringprep", "struct", "subprocess", "sunau", "symbol", "symtable",
  "sys", "sysconfig", "syslog", "tabnanny", "tarfile", "telnetlib",
  "tempfile", "termios", "test", "textwrap", "threading", "time", "timeit",
  "tkinter", "token", "tokenize", "trace", "traceback", "tracemalloc",
  "tty", "turtle", "turtledemo", "types", "typing", "unicodedata",
  "unittest", "urllib", "uu", "uuid", "venv", "warnings", "wave",
  "weakref", "webbrowser", "winreg", "winsound", "wsgiref", "xdrlib",
  "xml", "xmlrpc", "zipapp", "zipfile", "zipimport", "zlib"]

/-- `s.split(sep)` for a single-character separator, as Python's `str.split`:
`"".split(".") = [""]`, and separators at the ends yield empty segments. -/
def splitOnChar (c : Char) (s : String) : List String :=
  go s.data []
where
  go : List Char → List Char → List String
    | [], acc => [String.mk acc.reverse]
    | ch :: rest, acc =>
      if ch = c then String.mk acc.reverse :: go rest []
      else go rest (ch :: acc)

/-- `sep.join(parts)`. -/
def joinWith (sep : String) : List String → String
  | [] => ""
  | [x] => x
  | x :: xs => x ++ sep ++ joinWith sep xs

/-- `module.split(".")[0]`; `split` never returns an empty list, so the
default is never used. -/
def baseOf (module : String) : String :=
  (splitOnChar '.' module).headD ""

/-- `get_abs_module(current_module, module, level)`.  The Python function
starts with `assert level >= 1`; an assertion failure is modelled as `none`.
`parts[:-(level-1)]` for `level > 1` is `take (length - (level-1))`
(Python's negative slicing clamps at the empty list, which Nat subtraction
reproduces). -/
def get_abs_module (current_module module : String) (level : Nat) : Option String :=
  if level < 1 then none
  else
    let parts := splitOnChar '.' current_module
    let parts := if level > 1 then parts.take (parts.length - (level - 1)) else parts
    some (joinWith "." (parts ++ [module]))

/-- Expressions, covering the shapes `visit_Assign` dispatches on.
`tuple` stands for both tuple and list display nodes (either as a
destructuring target or as a value); `other` is any expression shape the
visitor never inspects structurally (calls, literals, lambdas, ...). -/
inductive Expr where
  | name (id : String)
  | attributeE (value : Expr) (attr : String)
  | subscript (value : Expr)
  | tuple (elts : List Expr)
  | other

/-- Statements.  `imp` is `import a[.b] [as c]` (one pair per alias in
`node.names`); `importFrom` is `from module import n [as a], ...` with its
relative `level`; `other` is any statement kind without a visitor method,
which `ast.NodeVisitor.generic_visit` walks without side effects. -/
inductive Stmt where
  | imp (names : List (String × Option String))
  | importFrom (module : Option String) (level : Nat) (names : List (String × Option String))
  | assign (targets : List Expr) (value : Expr)
  | other

/-- Outcome of the Module Locator collaborator
(`importlib.util.find_spec` plus reading and parsing the file):
`notFound` = `find_spec` raises `ModuleNotFoundError`;
`noSpec` = `find_spec` returns `None`;
`nonPy` = the spec's origin does not end in `.py`;
`unit path stmts` = a parseable source unit at `path` whose body is `stmts`. -/
inductive Locate where
  | notFound
  | noSpec
  | nonPy
  | unit (path : String) (stmts : List Stmt)

/-- The mutable fields of `AnnotatedAliasDetector`, in `__init__` order.
Sets are modelled as lists (membership up to `∈`); `symbol_def_graph` is an
association list `SymbolName → Optional SymbolName`. -/
structure DetectorState where
  current_dir : String
  current_module : Option String
  visited_modules : List String
  annotated_aliases : List String
  symbol_def_graph : List (String × Option String)
deriving DecidableEq, Repr

/-- `self.__init__()`: `current_dir = os.getcwd()`, everything else empty. -/
def initState (cwd : String) : DetectorState :=
  ⟨cwd, none, [], [], []⟩

/-- Python `set.add`. -/
def setAdd (l : List String) (x : String) : List String :=
  if x ∈ l then l else x :: l

/-- Python `set.discard`. -/
def setDiscard (l : List String) (x : String) : List String :=
  l.filter (fun y => decide (y ≠ x))

/-- `Path(path).parent`, used only for the saved/restored `current_dir`. -/
def dirname (p : String) : String :=
  joinWith "/" ((splitOnChar '/' p).dropLast)

/-- `f"{current_module}.{x}"` guarded by `if self.current_module:`
(Python truthiness: `None` and `""` are both false). -/
def qualify (cm : Option String) (x : String) : String :=
  match cm with
  | none => x
  | some m => if m = "" then x else m ++ "." ++ x

/-- `self.symbol_def_graph.get(name)`: `None` both for a missing key and for
a key bound to `None`. -/
def pyGet (g : List (String × Option String)) (name : String) : Option String :=
  match g.find? (fun e => decide (e.1 = name)) with
  | some e => e.2
  | none => none

/-- The loop body of `get_root_name`, fuel-indexed: at symbol `n`
(known truthy), `get` either returns a falsy value (missing key, `None`
value, or `""`) and the loop returns `n`, or a truthy successor to continue
from.  `none` means the loop did not finish within `fuel` iterations. -/
def getRootAux (g : List (String × Option String)) : Nat → String → Option String
  | 0, _ => none
  | fuel + 1, n =>
    match pyGet g n with
    | none => some n
    | some v => if v = "" then some n else getRootAux g fuel v

/-- `get_root_name(name)`.  For falsy input the `while` loop never runs and
`prev_name` is unbound, so the `return` raises `UnboundLocalError`
(modelled as `none`). -/
def get_root_name (g : List (String × Option String)) (fuel : Nat) (name : String) :
    Option String :=
  if name = "" then none else getRootAux g fuel name

/-- The body of `visit_Assign` after the target has been qualified: add the
target when the resolved value name is a known alias, otherwise discard it. -/
def updateAliasMembership (s : DetectorState) (target_name value_name : String) :
    DetectorState :=
  if value_name ∈ s.annotated_aliases then
    { s with annotated_aliases := setAdd s.annotated_aliases target_name }
  else
    { s with annotated_aliases := setDiscard s.annotated_aliases target_name }

/-- `visit_Assign(node)` with `node.targets` and `node.value`.
`node.targets[0]` raises `IndexError` on an empty list; a non-`Name` first
target returns immediately; the value dispatch is the source's
`if`/`elif` chain on `Name`, `Subscript`-of-`Name`, `Attribute`.  In the
`Attribute` arm the source reads `node.value.value.id`, which raises
`AttributeError` when the attribute's base is not a `Name`, and builds
`f"{node.value.value.id}{node.value.attr}"` (no dot between the parts). -/
def visit_Assign (s : DetectorState) (targets : List Expr) (value : Expr) :
    Option DetectorState :=
  match targets with
  | [] => none
  | t :: _ =>
    match t with
    | .name tid =>
      let target_name := qualify s.current_module tid
      match value with
      | .name vid =>
        some (updateAliasMembership s target_name (qualify s.current_module vid))
      | .subscript (.name vid) =>
        some (updateAliasMembership s target_name (qualify s.current_module vid))
      | .attributeE (.name vid) a =>
        some (updateAliasMembership s target_name (qualify s.current_module (vid ++ a)))
      | .attributeE _ _ => none
      | _ => some s
    | _ => some s

/-- One iteration of the `for name in node.names:` loop in
`visit_ImportFrom`, for the already-resolved `full_module`.  `nA` is
`(name.name, name.asname)`; `if name.asname:` is Python-truthy. -/
def importFromName (s : DetectorState) (full_module : String)
    (nA : String × Option String) : DetectorState :=
  let base_module := baseOf full_module
  if base_module = "typing" ∧ nA.1 ≠ "Annotated" then s
  else
    let sym_name := qualify s.current_module nA.1
    let import_sym_name := full_module ++ "." ++ nA.1
    let s :=
      if import_sym_name ∈ s.annotated_aliases ∨ import_sym_name = "typing.Annotated" then
        { s with annotated_aliases := setAdd s.annotated_aliases sym_name }
      else s
    match nA.2 with
    | none => s
    | some a =>
      if a = "" then s
      else
        let alias_name := qualify s.current_module a
        if sym_name ∈ s.annotated_aliases then
          { s with annotated_aliases := setAdd s.annotated_aliases alias_name }
        else s

/-- The whole `for name in node.names:` loop of `visit_ImportFrom`.
(`self.visit(name)` on an `ast.alias` and the trailing
`self.generic_visit(node)` dispatch to `generic_visit` on childless nodes
and are no-ops.) -/
def importFromNames (full_module : String) :
    DetectorState → List (String × Option String) → DetectorState
  | s, [] => s
  | s, nA :: rest => importFromNames full_module (importFromName s full_module nA) rest

/-- The `for name in node.names:` loop of `visit_Import`, parameterized by
the module visitor `vm`.  Each non-builtin target is visited at `level=0`;
`name.asname` is never read.  (The trailing
`if hasattr(node, "module") and hasattr(node, "level")` block is dead code:
an `ast.Import` node has neither attribute.) -/
def visitImportNamesG
    (vm : DetectorState → String → Nat → Option (String × DetectorState)) :
    DetectorState → List (String × Option String) → Option DetectorState
  | s, [] => some s
  | s, nA :: rest =>
    if baseOf nA.1 ∈ builtin_modules then visitImportNamesG vm s rest
    else
      match vm s nA.1 0 with
      | none => none
      | some (_, s') => visitImportNamesG vm s' rest

/-- Statement dispatch (`ast.NodeVisitor.visit` on one statement),
parameterized by the module visitor `vm`.
`visit_ImportFrom` returns at once when `node.module` is falsy, resolves the
module, then skips entirely when the resolved base is a non-`typing`
builtin. -/
def visitStmtG
    (vm : DetectorState → String → Nat → Option (String × DetectorState))
    (s : DetectorState) : Stmt → Option DetectorState
  | .imp names => visitImportNamesG vm s names
  | .importFrom mo level names =>
    match mo with
    | none => some s
    | some m =>
      if m = "" then some s
      else
        match vm s m level with
        | none => none
        | some (full_module, s') =>
          let base_module := baseOf full_module
          if base_module ≠ "typing" ∧ base_module ∈ builtin_modules then some s'
          else some (importFromNames full_module s' names)
  | .assign targets value => visit_Assign s targets value
  | .other => some s

/-- `self.visit(module_node)` on a parsed module: `generic_visit` walks the
statement list in textual order, threading the state. -/
def visitStmtsG
    (vm : DetectorState → String → Nat → Option (String × DetectorState)) :
    DetectorState → List Stmt → Option DetectorState
  | s, [] => some s
  | s, st :: rest =>
    match visitStmtG vm s st with
    | none => none
    | some s' => visitStmtsG vm s' rest

/-- `visit_module(module, level)`, fuel-indexed (the fuel bounds the
import-nesting depth; `none` on exhaustion, and also for the uncaught
`AttributeError` when a relative import runs with `current_module = None`).

Relative branch (`level >= 1`): convert to an absolute name, return it if
already visited, otherwise record it as visited *before* the locator call;
a locator miss returns the name with no further mutation; a source unit is
visited with `current_module`/`current_dir` saved and restored.

Absolute branch (`level = 0`): builtin bases return immediately (without
touching `visited_modules`); already-visited modules return; a locator miss
returns with no mutation at all; a source unit is recorded as visited and
traversed under the saved/restored context. -/
def visitModuleFuel (L : String → Locate) :
    Nat → DetectorState → String → Nat → Option (String × DetectorState)
  | 0 => fun _ _ _ => none
  | fuel + 1 => fun s module level =>
    let base_module := baseOf module
    if level ≥ 1 then
      match s.current_module with
      | none => none
      | some cm =>
        match get_abs_module cm module level with
        | none => none
        | some abs_module =>
          if abs_module ∈ s.visited_modules then some (abs_module, s)
          else
            let s₁ := { s with visited_modules := setAdd s.visited_modules abs_module }
            match L abs_module with
            | .notFound => some (abs_module, s₁)
            | .noSpec => some (abs_module, s₁)
            | .nonPy => some (abs_module, s₁)
            | .unit path stmts =>
              let s₂ := { s₁ with current_module := some abs_module,
                                  current_dir := dirname path }
              match visitStmtsG (visitModuleFuel L fuel) s₂ stmts with
              | none => none
              | some s₃ =>
                some (abs_module, { s₃ with current_dir := s.current_dir,
                                            current_module := s.current_module })
    else
      if base_module ∈ builtin_modules then some (module, s)
      else if module ∈ s.visited_modules then some (module, s)
      else
        match L module with
        | .notFound => some (module, s)
        | .noSpec => some (module, s)
        | .nonPy => some (module, s)
        | .unit path stmts =>
          let s₂ := { s with current_dir := dirname path,
                             current_module := some module,
                             visited_modules := setAdd s.visited_modules module }
          match visitStmtsG (visitModuleFuel L fuel) s₂ stmts with
          | none => none
          | some s₃ =>
            some (module, { s₃ with current_dir := s.current_dir,
                                    current_module := s.current_module })

/-- Traversal of a statement list with the fuel-indexed module visitor:
`analyzer.visit(tree)` on an entry unit's body. -/
def visitStmts (L : String → Locate) (fuel : Nat) :
    DetectorState → List Stmt → Option DetectorState :=
  visitStmtsG (visitModuleFuel L fuel)

/-! Concrete programs, oracles and states used to settle individual claims,
plus spec-side definitions used in refinement statements. -/

/-- Locator oracle: `module_a` is a source package that imports `Annotated`
from `typing` and defines `FooType = Annotated[...]`; everything else is
unresolvable. -/
def moduleAOracle : String → Locate :=
  fun m =>
    if m = "module_a" then
      .unit "/src/module_a/__init__.py"
        [ .importFrom (some "typing") 0 [("Annotated", none)],
          .assign [.name "FooType"] (.subscript (.name "Annotated")) ]
    else .notFound

/-- Entry unit `from module_a import FooType`. -/
def c1Program : List Stmt := [ .importFrom (some "module_a") 0 [("FooType", none)] ]

/-- Entry unit `from typing import Annotated; X = Annotated; X = f()`
(the final value is a call, an expression shape `visit_Assign` ignores). -/
def c2Program : List Stmt :=
  [ .importFrom (some "typing") 0 [("Annotated", none)],
    .assign [.name "X"] (.name "Annotated"),
    .assign [.name "X"] .other ]

/-- Entry unit `from typing import Annotated; a, b = Annotated`. -/
def c3Program : List Stmt :=
  [ .importFrom (some "typing") 0 [("Annotated", none)],
    .assign [.tuple [.name "a", .name "b"]] (.name "Annotated") ]

/-- How the `visit_Assign` `elif` chain classifies a value expression:
`resolved vn` when one of the three handled shapes applies and resolves to
the qualified name `vn`; `untracked` when no branch applies (the statement
is then a no-op); `crash` when the `Attribute` arm raises `AttributeError`
because the attribute's base is not a `Name`. -/
inductive AssignValueCase where
  | resolved (value_name : String)
  | untracked
  | crash
deriving DecidableEq

/-- Classification function for `AssignValueCase`. -/
def assignValueCase (cm : Option String) : Expr → AssignValueCase
  | .name vid => .resolved (qualify cm vid)
  | .subscript (.name vid) => .resolved (qualify cm vid)
  | .attributeE (.name vid) a => .resolved (qualify cm (vid ++ a))
  | .attributeE _ _ => .crash
  | _ => .untracked

/-- Whether an expression is a plain `ast.Name`. -/
def isPlainName : Expr → Bool
  | .name _ => true
  | _ => false

/-- State reached after `import jaxtyping` has put the marker re-export
`jaxtyping.Float` into AliasSet (cf. `test_jaxtyping_import`). -/
def c4State : DetectorState := ⟨"", none, [], ["jaxtyping.Float"], []⟩

/-- `absoluteModule` as the claim words it for `level ≥ 1`: `currentModule`
with its last `level - 1` dotted components dropped and the target name
appended. -/
def absoluteModuleSpec (current_module module : String) (level : Nat) : String :=
  let parts := splitOnChar '.' current_module
  joinWith "." (parts.take (parts.length - (level - 1)) ++ [module])

/-- A state that has already visited both `mod_a` and `pkg.rel`, inside
module `pkg`. -/
def visitedSt : DetectorState := ⟨"", some "pkg", ["mod_a", "pkg.rel"], ["x"], []⟩

/-- A state whose current module is `pkg`, nothing visited yet. -/
def pkgSt : DetectorState := ⟨"", some "pkg", [], [], []⟩

/-- A two-element cyclic provenance graph. -/
def cycleGraph : List (String × Option String) := [("a", some "b"), ("b", some "a")]

/-- A state inside module `entry` whose AliasSet already holds `pkg.Foo`. -/
def c10St : DetectorState := ⟨"", some "entry", [], ["pkg.Foo"], []⟩

/-- A terminal of the `get_root_name` walk: the `while` guard fails right
after `get`, i.e. `get` yields a falsy value (missing key, `None` value, or
the empty string). -/
def isTerminalSym (g : List (String × Option String)) (r : String) : Prop :=
  pyGet g r = none ∨ pyGet g r = some ""

/-- One backwards step of the `get_root_name` walk: `b` steps to its truthy
successor `a`. -/
def gStep (g : List (String × Option String)) (a b : String) : Prop :=
  pyGet g b = some a ∧ a ≠ ""

/-! Helper lemmas about the set operations and the per-name import loop. -/

theorem mem_setAdd_self (l : List String) (x : String) : x ∈ setAdd l x := by
  unfold setAdd
  split
  · assumption
  · exact List.mem_cons_self x l

theorem mem_setAdd_of_mem {l : List String} {x : String} (y : String)
    (h : x ∈ l) : x ∈ setAdd l y := by
  unfold setAdd
  split
  · exact h
  · exact List.mem_cons_of_mem y h

theorem not_mem_setDiscard_self (l : List String) (x : String) :
    x ∉ setDiscard l x := by
  intro h
  simp [setDiscard, List.mem_filter] at h

theorem mem_updateAliasMembership (s : DetectorState) (t vn : String) :
    t ∈ (updateAliasMembership s t vn).annotated_aliases
      ↔ vn ∈ s.annotated_aliases := by
  by_cases h : vn ∈ s.annotated_aliases
  · simp [updateAliasMembership, h, mem_setAdd_self]
  · simp [updateAliasMembership, h, not_mem_setDiscard_self]

theorem importFromName_current_module (s : DetectorState) (fm : String)
    (nA : String × Option String) :
    (importFromName s fm nA).current_module = s.current_module := by
  obtain ⟨n, a⟩ := nA
  unfold importFromName
  dsimp only
  repeat' split
  all_goals rfl

theorem importFromName_mono (s : DetectorState) (fm : String)
    (nA : String × Option String) {x : String}
    (h : x ∈ s.annotated_aliases) :
    x ∈ (importFromName s fm nA).annotated_aliases := by
  obtain ⟨n, a⟩ := nA
  unfold importFromName
  dsimp only
  repeat' split
  all_goals first
    | exact h
    | exact mem_setAdd_of_mem _ h
    | exact mem_setAdd_of_mem _ (mem_setAdd_of_mem _ h)

theorem importFromNames_mono (fm : String) (names : List (String × Option String)) :
    ∀ (s : DetectorState) (x : String), x ∈ s.annotated_aliases →
      x ∈ (importFromNames fm s names).annotated_aliases := by
  induction names with
  | nil => intro s x h; exact h
  | cons nA rest ih =>
    intro s x h
    exact ih _ _ (importFromName_mono s fm nA h)

/-! Theorems settling the claims. -/

/-- C1: the claim states that every import-from binding and every
plain-name assignment records a provenance edge in the ProvenanceGraph
(`symbol_def_graph`).  In fact no code path ever writes
`symbol_def_graph`: on the run `from module_a import FooType` — where
`module_a` does `from typing import Annotated; FooType = Annotated[...]` —
three alias names are produced, yet the graph is still empty afterwards,
although the class docstring promises the path
`FooType -> module_a.FooType -> ...`. -/
theorem provenance_graph_never_populated :
    Option.map (fun s => (s.annotated_aliases, s.symbol_def_graph))
      (visitStmts moduleAOracle 3 (initState "/src") c1Program)
      = some (["FooType", "module_a.FooType", "module_a.Annotated"], []) := rfl

/-- C2 counterexample: after
`from typing import Annotated; X = Annotated; X = f()` the call value is an
unhandled expression shape, so `X` stays in AliasSet even though the claim
requires its removal for every value shape; moreover an assignment whose
resolved value name literally equals the marker's canonical name
`typing.Annotated` is not added when that name is absent from AliasSet,
because `visit_Assign` tests only membership. -/
theorem assign_untracked_value_keeps_alias :
    (Option.map (fun s => s.annotated_aliases)
        (visitStmts (fun _ => Locate.notFound) 1 (initState "") c2Program)
        = some ["X", "Annotated"])
    ∧ (visit_Assign ⟨"", some "typing", [], [], []⟩ [Expr.name "X"] (Expr.name "Annotated")
        = some ⟨"", some "typing", [], [], []⟩) := ⟨rfl, rfl⟩

/-- C2 amended: for an assignment whose first target is a plain name, when
the value has one of the three handled shapes (name, subscript of a name,
attribute of a name) the qualified target is in the resulting AliasSet iff
the resolved value name was already a member — there is no special case for
the marker's canonical name; when the value has any other non-crashing
shape (calls, literals, tuples, ...) the statement leaves the state
entirely unchanged. -/
theorem visit_Assign_membership_amended (s : DetectorState) (tid : String)
    (rest : List Expr) (v : Expr) :
    (∀ vn, assignValueCase s.current_module v = .resolved vn →
      ∃ t, visit_Assign s (.name tid :: rest) v = some t
        ∧ (qualify s.current_module tid ∈ t.annotated_aliases
            ↔ vn ∈ s.annotated_aliases))
    ∧ (assignValueCase s.current_module v = .untracked →
        visit_Assign s (.name tid :: rest) v = some s) := by
  constructor
  · intro vn hvn
    cases v with
    | name vid =>
      simp [assignValueCase] at hvn
      exact ⟨_, rfl, hvn ▸ mem_updateAliasMembership s _ _⟩
    | subscript e =>
      cases e with
      | name vid =>
        simp [assignValueCase] at hvn
        exact ⟨_, rfl, hvn ▸ mem_updateAliasMembership s _ _⟩
      | _ => simp [assignValueCase] at hvn
    | attributeE e a =>
      cases e with
      | name vid =>
        simp [assignValueCase] at hvn
        exact ⟨_, rfl, hvn ▸ mem_updateAliasMembership s _ _⟩
      | _ => simp [assignValueCase] at hvn
    | _ => simp [assignValueCase] at hvn
  · intro huv
    cases v with
    | name vid => simp [assignValueCase] at huv
    | subscript e => cases e <;> simp [assignValueCase, visit_Assign] at huv ⊢
    | attributeE e a => cases e <;> simp [assignValueCase, visit_Assign] at huv ⊢
    | tuple es => rfl
    | other => rfl

/-- Witness for the C2 amended theorem at a concrete input. -/
theorem visit_Assign_membership_amended_witness :
    ∃ t, visit_Assign ⟨"", none, [], ["A"], []⟩ [Expr.name "X"] (Expr.name "A") = some t
      ∧ ("X" ∈ t.annotated_aliases
          ↔ "A" ∈ (⟨"", none, [], ["A"], []⟩ : DetectorState).annotated_aliases) :=
  (visit_Assign_membership_amended ⟨"", none, [], ["A"], []⟩ "X" [] (Expr.name "A")).1
    "A" rfl

/-- C3 counterexample: after `from typing import Annotated; a, b = Annotated`
(where the value is in AliasSet) the final AliasSet is just
`{Annotated}` — neither `a` nor `b` was bound, though the claim requires
both to receive the value's alias status. -/
theorem destructuring_targets_not_bound :
    Option.map (fun s => s.annotated_aliases)
      (visitStmts (fun _ => Locate.notFound) 1 (initState "") c3Program)
      = some ["Annotated"] := rfl

/-- C3 amended: `visit_Assign` consults only `node.targets[0]`: processing
`a = b = value` is identical to processing `a = value` (extra chained
targets are ignored), and when the first target is not a plain name — in
particular any tuple/list destructuring pattern — the whole assignment is a
no-op and no leaf target is bound. -/
theorem assign_uses_first_target_only (s : DetectorState) (t : Expr)
    (ts : List Expr) (v : Expr) :
    visit_Assign s (t :: ts) v = visit_Assign s [t] v
    ∧ (isPlainName t = false → visit_Assign s (t :: ts) v = some s) := by
  refine ⟨rfl, ?_⟩
  intro h
  cases t with
  | name tid => simp [isPlainName] at h
  | _ => rfl

/-- Witness for the C3 amended theorem at a concrete input. -/
theorem assign_uses_first_target_only_witness :
    isPlainName (Expr.tuple [Expr.name "a", Expr.name "b"]) = false
    ∧ visit_Assign ⟨"", none, [], ["Annotated"], []⟩
        [Expr.tuple [Expr.name "a", Expr.name "b"], Expr.name "c"]
        (Expr.name "Annotated")
        = some ⟨"", none, [], ["Annotated"], []⟩ :=
  ⟨rfl,
    (assign_uses_first_target_only ⟨"", none, [], ["Annotated"], []⟩
      (Expr.tuple [Expr.name "a", Expr.name "b"]) [Expr.name "c"]
      (Expr.name "Annotated")).2 rfl⟩

/-- C4: with `jaxtyping.Float` in AliasSet, the assignment
`MyFloat = jaxtyping.Float` resolves the attribute value to
`"jaxtypingFloat"` — the source concatenates
`f"{node.value.value.id}{node.value.attr}"` without the dot — so the
membership test fails and `MyFloat` is not added; the state is unchanged.
The repository's own test `test_jaxtyping_import` expects `MyFloat` in the
final alias set, so the code contradicts its test. -/
theorem attribute_value_name_missing_dot :
    visit_Assign c4State [Expr.name "MyFloat"]
      (Expr.attributeE (Expr.name "jaxtyping") "Float") = some c4State
    ∧ qualify c4State.current_module ("jaxtyping" ++ "Float") = "jaxtypingFloat" :=
  ⟨rfl, rfl⟩

/-- C5 counterexample: at `level = 0` the function's `assert level >= 1`
fails; it does not return the target name unchanged. -/
theorem get_abs_module_level_zero_fails :
    get_abs_module "pkg.sub" "mod" 0 = none := rfl

/-- C5 amended: `get_abs_module` rejects `level = 0` by assertion (the
caller handles absolute imports without it); for every `level ≥ 1` and
every current module with at least `level - 1` dotted components it returns
the current module with its last `level - 1` components dropped and the
target appended. -/
theorem get_abs_module_matches_spec (cur tgt : String) (level : Nat)
    (h1 : 1 ≤ level) (_h2 : level - 1 ≤ (splitOnChar '.' cur).length) :
    get_abs_module cur tgt level = some (absoluteModuleSpec cur tgt level) := by
  unfold get_abs_module absoluteModuleSpec
  rw [if_neg (by omega)]
  by_cases h : level > 1
  · simp [h]
  · have hl : level = 1 := by omega
    subst hl
    simp

/-- Witness for the C5 amended theorem, on the inputs of the repository's
`test_get_abs_module_level_2`. -/
theorem get_abs_module_matches_spec_witness :
    1 ≤ 2 ∧ 2 - 1 ≤ (splitOnChar '.' "numpy.core.numeric").length
    ∧ get_abs_module "numpy.core.numeric" "_multiarray_umath" 2
        = some (absoluteModuleSpec "numpy.core.numeric" "_multiarray_umath" 2) :=
  ⟨by decide, by decide,
    get_abs_module_matches_spec "numpy.core.numeric" "_multiarray_umath" 2
      (by decide) (by decide)⟩

/-- C6 counterexample: visiting the builtin module `os` (level 0) returns
immediately with the state — `visited_modules` included — unchanged, so an
opaque module is *not* recorded as visited. -/
theorem builtin_module_not_recorded :
    visitModuleFuel (fun _ => Locate.notFound) 1 (initState "/w") "os" 0
      = some ("os", initState "/w")
    ∧ "os" ∉ (initState "/w").visited_modules := ⟨rfl, by decide⟩

/-- C6 amended: a module whose base component is in the standard-module
list is returned by `visit_module` (level 0) with the whole state — in
particular `VisitedSet` — unchanged; opaque modules contribute no graph
edges and are not recorded as visited. -/
theorem builtin_module_noop (L : String → Locate) (fuel : Nat)
    (s : DetectorState) (m : String) (h : baseOf m ∈ builtin_modules) :
    visitModuleFuel L (fuel + 1) s m 0 = some (m, s) := by
  simp [visitModuleFuel, h]

/-- Witness for the C6 amended theorem at a concrete input. -/
theorem builtin_module_noop_witness :
    baseOf "os.path" ∈ builtin_modules
    ∧ visitModuleFuel (fun _ => Locate.notFound) 1 (initState "/w") "os.path" 0
        = some ("os.path", initState "/w") :=
  ⟨by decide, builtin_module_noop (fun _ => Locate.notFound) 0 (initState "/w")
    "os.path" (by decide)⟩

/-- C7: calling `visit_module` on a module whose resolved ModuleId is
already in `VisitedSet` is a no-op: it returns the resolved name with the
entire state (VisitedSet, AliasSet, ProvenanceGraph, context) unchanged,
for both the absolute branch (`level = 0`) and the relative branch
(`level ≥ 1`, which requires a set current module). -/
theorem visited_module_revisit_noop (L : String → Locate) (fuel : Nat)
    (s : DetectorState) (module : String) :
    (module ∈ s.visited_modules →
      visitModuleFuel L (fuel + 1) s module 0 = some (module, s))
    ∧ (∀ cm level am, s.current_module = some cm → 1 ≤ level →
        get_abs_module cm module level = some am → am ∈ s.visited_modules →
        visitModuleFuel L (fuel + 1) s module level = some (am, s)) := by
  constructor
  · intro hv
    by_cases hb : baseOf module ∈ builtin_modules
    · simp [visitModuleFuel, hb]
    · simp [visitModuleFuel, hb, hv]
  · intro cm level am hcm hl hab hv
    simp [visitModuleFuel, hl, hcm, hab, hv]

/-- Witness for C7 at concrete inputs: `mod_a` was already visited
(absolute), and the relative import `from .rel import ...` resolves to the
already-visited `pkg.rel`. -/
theorem visited_module_revisit_noop_witness :
    "mod_a" ∈ visitedSt.visited_modules
    ∧ visitModuleFuel (fun _ => Locate.notFound) 1 visitedSt "mod_a" 0
        = some ("mod_a", visitedSt)
    ∧ get_abs_module "pkg" "rel" 1 = some "pkg.rel"
    ∧ "pkg.rel" ∈ visitedSt.visited_modules
    ∧ visitModuleFuel (fun _ => Locate.notFound) 1 visitedSt "rel" 1
        = some ("pkg.rel", visitedSt) :=
  ⟨by decide,
    (visited_module_revisit_noop (fun _ => Locate.notFound) 0 visitedSt "mod_a").1
      (by decide),
    rfl, by decide,
    (visited_module_revisit_noop (fun _ => Locate.notFound) 0 visitedSt "rel").2
      "pkg" 1 "pkg.rel" rfl (by decide) rfl (by decide)⟩

/-- C8: an import the locator cannot see into (find_spec raises
`ModuleNotFoundError` or returns no spec) does not raise: `visit_module`
returns the module name, `annotated_aliases` and `symbol_def_graph` are
untouched (the absolute branch changes nothing at all, the relative branch
only records the name as visited), and traversal of the following
statements continues exactly as if the import statement were absent. -/
theorem unresolvable_import_tolerated (L : String → Locate) (fuel : Nat)
    (s : DetectorState) (module : String) (rest : List Stmt)
    (hb : baseOf module ∉ builtin_modules) (hv : module ∉ s.visited_modules)
    (hL : L module = Locate.notFound ∨ L module = Locate.noSpec) :
    visitModuleFuel L (fuel + 1) s module 0 = some (module, s)
    ∧ visitStmts L (fuel + 1) s (Stmt.imp [(module, none)] :: rest)
        = visitStmts L (fuel + 1) s rest
    ∧ (∀ cm level am, s.current_module = some cm → 1 ≤ level →
        get_abs_module cm module level = some am → am ∉ s.visited_modules →
        (L am = Locate.notFound ∨ L am = Locate.noSpec) →
        visitModuleFuel L (fuel + 1) s module level
          = some (am, { s with visited_modules := setAdd s.visited_modules am })) := by
  have h0 : visitModuleFuel L (fuel + 1) s module 0 = some (module, s) := by
    rcases hL with h | h <;> simp [visitModuleFuel, hb, hv, h]
  refine ⟨h0, ?_, ?_⟩
  · simp [visitStmts, visitStmtsG, visitStmtG, visitImportNamesG, hb, h0]
  · intro cm level am hcm hl hab hv2 hL2
    rcases hL2 with h | h <;> simp [visitModuleFuel, hl, hcm, hab, hv2, h]

/-- Witness for C8 at concrete inputs (everything unresolvable). -/
theorem unresolvable_import_tolerated_witness :
    baseOf "nonexistant_package.module" ∉ builtin_modules
    ∧ "nonexistant_package.module" ∉ pkgSt.visited_modules
    ∧ visitModuleFuel (fun _ => Locate.notFound) 1 pkgSt
        "nonexistant_package.module" 0 = some ("nonexistant_package.module", pkgSt)
    ∧ visitStmts (fun _ => Locate.notFound) 1 pkgSt
        [Stmt.imp [("nonexistant_package.module", none)], Stmt.other]
        = visitStmts (fun _ => Locate.notFound) 1 pkgSt [Stmt.other]
    ∧ visitModuleFuel (fun _ => Locate.notFound) 1 pkgSt
        "nonexistant_package.module" 1
        = some ("pkg.nonexistant_package.module",
            { pkgSt with
              visited_modules := setAdd pkgSt.visited_modules "pkg.nonexistant_package.module" }) := by
  have h := unresolvable_import_tolerated (fun _ => Locate.notFound) 0 pkgSt
    "nonexistant_package.module" [Stmt.other] (by decide) (by decide) (Or.inl rfl)
  exact ⟨by decide, by decide, h.1, h.2.1,
    h.2.2 "pkg" 1 "pkg.nonexistant_package.module" rfl (by decide) rfl
      (by decide) (Or.inl rfl)⟩

/-- Helper for the C9 counterexample: on the cyclic graph the loop state
alternates between `a` and `b`, so no amount of fuel finishes the walk. -/
theorem cycleGraph_walk_never_stops (fuel : Nat) :
    getRootAux cycleGraph fuel "a" = none ∧ getRootAux cycleGraph fuel "b" = none := by
  induction fuel with
  | zero => exact ⟨rfl, rfl⟩
  | succ f ih => exact ⟨ih.2, ih.1⟩

/-- C9 counterexample: the claim quantifies over every graph state, but on
the cyclic graph {a ↦ b, b ↦ a} the `while` loop of `get_root_name` never
terminates: no fuel bound makes the walk from `a` return. -/
theorem get_root_name_diverges_on_cycle :
    (∃ fuel r, get_root_name cycleGraph fuel "a" = some r) = False := by
  apply eq_false
  rintro ⟨fuel, r, h⟩
  rw [get_root_name, if_neg (by decide)] at h
  rw [(cycleGraph_walk_never_stops fuel).1] at h
  exact Option.noConfusion h

/-- C9 amended: for every graph and every non-empty symbol from which the
edge-following relation is well-founded (no infinite truthy chain — in
particular no cycle is reachable), `get_root_name` terminates and returns a
terminal symbol (one whose `get` is falsy: no outgoing edge or the null
sentinel); a symbol with no graph entry resolves to itself.  (The empty
symbol name makes the Python loop body never run, so the `return` raises
`UnboundLocalError`; it is excluded.) -/
theorem get_root_name_terminates_of_acc (g : List (String × Option String))
    (name : String) (hne : name ≠ "") (hacc : Acc (gStep g) name) :
    ∃ fuel r, get_root_name g fuel name = some r ∧ isTerminalSym g r
      ∧ (pyGet g name = none → r = name) := by
  have key : ∀ x, Acc (gStep g) x →
      ∃ fuel r, getRootAux g fuel x = some r ∧ isTerminalSym g r
        ∧ (pyGet g x = none → r = x) := by
    intro x hx
    induction hx with
    | intro x hpred ih =>
      cases hpg : pyGet g x with
      | none =>
        refine ⟨1, x, ?_, Or.inl hpg, fun _ => rfl⟩
        simp [getRootAux, hpg]
      | some v =>
        by_cases hv : v = ""
        · subst hv
          refine ⟨1, x, ?_, Or.inr hpg, ?_⟩
          · simp [getRootAux, hpg]
          · intro hcon; exact Option.noConfusion hcon
        · obtain ⟨f, r, hf, hterm, _⟩ := ih v ⟨hpg, hv⟩
          refine ⟨f + 1, r, ?_, hterm, ?_⟩
          · simp [getRootAux, hpg, hv, hf]
          · intro hcon; exact Option.noConfusion hcon
  obtain ⟨fuel, r, hf, hterm, hself⟩ := key name hacc
  exact ⟨fuel, r, by rw [get_root_name, if_neg hne]; exact hf, hterm, hself⟩

/-- Witness for C9 amended: on the empty graph (the only graph the program
ever produces) every symbol is accessible and resolves to itself. -/
theorem get_root_name_terminates_of_acc_witness :
    ("x" : String) ≠ "" ∧ Acc (gStep ([] : List (String × Option String))) "x"
    ∧ ∃ fuel r, get_root_name ([] : List (String × Option String)) fuel "x" = some r
        ∧ isTerminalSym [] r
        ∧ (pyGet ([] : List (String × Option String)) "x" = none → r = "x") := by
  have hacc : Acc (gStep ([] : List (String × Option String))) "x" :=
    Acc.intro _ (fun y hy => absurd hy.1 (by simp [pyGet]))
  exact ⟨by decide, hacc, get_root_name_terminates_of_acc [] "x" (by decide) hacc⟩

/-- C10: for a `from X import n as a` binding whose imported symbol `X.n`
is the marker's canonical name or already in AliasSet (and which the
typing-filter does not skip), processing the import-from name list adds
*both* `currentModule.n` and `currentModule.a` to AliasSet — the original
name `n` is marked in the importing module even though the analyzed Python
binds only the as-name `a` there. -/
theorem import_as_adds_both_names (fm n a cm : String)
    (names : List (String × Option String)) (s : DetectorState)
    (hcm : s.current_module = some cm) (hcmne : cm ≠ "") (ha : a ≠ "")
    (hskip : baseOf fm = "typing" → n = "Annotated")
    (hsym : fm ++ "." ++ n ∈ s.annotated_aliases ∨ fm ++ "." ++ n = "typing.Annotated")
    (hmem : (n, some a) ∈ names) :
    (cm ++ "." ++ n) ∈ (importFromNames fm s names).annotated_aliases
    ∧ (cm ++ "." ++ a) ∈ (importFromNames fm s names).annotated_aliases := by
  have hskip' : ¬(baseOf fm = "typing" ∧ n ≠ "Annotated") := fun hc => hc.2 (hskip hc.1)
  revert hcm hsym hmem
  revert s
  induction names with
  | nil => intro s _ _ hmem; cases hmem
  | cons nA rest ih =>
    intro s hcm hsym hmem
    rcases List.mem_cons.mp hmem with heq | hmem'
    · subst heq
      have hstep : (importFromName s fm (n, some a)).annotated_aliases
          = setAdd (setAdd s.annotated_aliases (cm ++ "." ++ n)) (cm ++ "." ++ a) := by
        unfold importFromName
        rw [if_neg hskip']
        simp only [hcm, qualify, if_neg hcmne]
        rw [if_pos hsym, if_neg ha, if_pos (mem_setAdd_self _ _)]
        simp [hcmne]
      simp only [importFromNames]
      refine ⟨importFromNames_mono fm rest _ _ ?_, importFromNames_mono fm rest _ _ ?_⟩
      · rw [hstep]; exact mem_setAdd_of_mem _ (mem_setAdd_self _ _)
      · rw [hstep]; exact mem_setAdd_self _ _
    · have hcm2 : (importFromName s fm nA).current_module = some cm := by
        rw [importFromName_current_module]; exact hcm
      have hsym2 : fm ++ "." ++ n ∈ (importFromName s fm nA).annotated_aliases
          ∨ fm ++ "." ++ n = "typing.Annotated" := by
        rcases hsym with h | h
        · exact Or.inl (importFromName_mono _ _ _ h)
        · exact Or.inr h
      exact ih _ hcm2 hsym2 hmem'

/-- Witness for C10 at concrete inputs: in module `entry`, with `pkg.Foo`
already an alias, `from pkg import Foo as F` marks both `entry.Foo` and
`entry.F`. -/
theorem import_as_adds_both_names_witness :
    ("entry.Foo" ∈ (importFromNames "pkg" c10St [("Foo", some "F")]).annotated_aliases)
    ∧ ("entry.F" ∈ (importFromNames "pkg" c10St [("Foo", some "F")]).annotated_aliases) :=
  import_as_adds_both_names "pkg" "Foo" "F" "entry" [("Foo", some "F")] c10St
    rfl (by decide) (by decide) (by decide) (Or.inl (by decide)) (by decide)

end StaticAnalysis
